import Mathlib

/-!
Verification of the multi-tenant schema/connection manager of the
forpharma backend: the tenant-resolution middleware
(src/middlewares/tenantMiddleware.ts), the startup and shutdown lifecycle
glue (main.ts, the two observed variants of organizationRoutes), and the
Registry operations they call.  The SchemaManagementService implementation
file itself is not part of the sources at hand, so its operations are
modelled from the specification where a claim depends on their behaviour;
everything else is a direct shallow embedding of the TypeScript sources.
-/

namespace ForPharma

/-- Errors thrown inside the middleware body.  The catch clause of
tenantMiddleware.ts distinguishes only JsonWebTokenError from everything
else, so one inductive with a jwt constructor and the two 500-class error
kinds of the spec taxonomy suffices. -/
inductive ThrownErr where
  | jwtError
  | connectionError
  | provisioningError
deriving DecidableEq, Repr

/-- Control-plane Organization row: id, name, nullable schemaName, isActive
(select of tenantMiddleware.ts lines 37-44). -/
structure OrgRow where
  id : String
  name : String
  schemaName : Option String
  isActive : Bool
deriving DecidableEq, Repr

/-- Control-plane User row joined with its Organization, exactly the shape
selected by sharedDb.user.findUnique in tenantMiddleware.ts lines 28-46. -/
structure UserRow where
  id : String
  email : String
  role : String
  organizationId : Option String
  organization : Option OrgRow
deriving DecidableEq, Repr

/-- Payload obtained from jwt.verify: the email claim (may be absent) and
the role claim carried by the credential. -/
structure DecodedToken where
  email : Option String
  role : String
deriving DecidableEq, Repr

/-- In-process tenant connection handle, bound to exactly one schemaName;
poolId numbers the underlying pool construction. -/
structure TenantHandle where
  schemaName : String
  poolId : Nat
deriving DecidableEq, Repr

/-- Registry state visible to one request: the schemaName-to-handle cache
and a counter supplying pool ids. -/
structure Registry where
  cache : List (String × TenantHandle)
  nextPoolId : Nat
deriving DecidableEq, Repr

/-- Modelled from the spec: SchemaManagementService.getTenantClient
(spec section 4.1); the implementation file is absent from the sources, only
its callers are present.  Sequential projection of steps (1) and (3): a
cached handle is returned as is, otherwise a new pooled handle is opened,
migrated and cached.  The io argument stands for the outcome of the
asynchronous open-and-migrate work of step (3). -/
def Registry.getTenantClient (reg : Registry) (s : String)
    (io : Except ThrownErr Unit) : Except ThrownErr (TenantHandle × Registry) :=
  match reg.cache.lookup s with
  | some h => .ok (h, reg)
  | none =>
    match io with
    | .error e => .error e
    | .ok _ =>
      let h : TenantHandle := ⟨s, reg.nextPoolId⟩
      .ok (h, { cache := (s, h) :: reg.cache, nextPoolId := reg.nextPoolId + 1 })

/-- Well-formed registry: every cached handle is bound to the schema it is
cached under. -/
def RegWF (reg : Registry) : Prop :=
  ∀ p ∈ reg.cache, (p.2 : TenantHandle).schemaName = p.1

/-- Identity attached to the request by tenantMiddleware.ts lines 81-89:
the spread of the decoded token followed by the explicit overriding keys,
so role comes from the control-plane User row and id from the tenant-local
employee lookup (possibly absent). -/
structure Identity where
  id : Option String
  email : String
  employeeId : String
  organizationId : String
  organizationName : String
  role : String
deriving DecidableEq, Repr

/-- Environment of one middleware run: the pieces of outside state the
middleware consults, in source order. -/
structure MwEnv where
  token : Option String
  verify : String → Except ThrownErr DecodedToken
  findUser : String → Except ThrownErr (Option UserRow)
  tenantIo : Except ThrownErr Unit
  findEmployee : String → Except ThrownErr (Option String)

/-- Suspension points the middleware actually reached, in order. -/
inductive MwStep where
  | verifyToken
  | userLookup
  | tenantClientCall (schemaName : String)
  | employeeLookup
deriving DecidableEq, Repr

/-- Outcome of the middleware: an error response with status and error
message, or next() handing over to the downstream handler. -/
inductive MwOutcome where
  | respond (status : Nat) (error : String)
  | nextCalled
deriving DecidableEq, Repr

/-- Full result of one middleware run: outcome, the request-context fields
req.user and req.tenantDb as left behind, the registry state after the run,
and the steps reached. -/
structure MwResult where
  outcome : MwOutcome
  reqUser : Option Identity
  reqTenantDb : Option TenantHandle
  registry : Registry
  steps : List MwStep
deriving DecidableEq, Repr

/-- Catch clause of tenantMiddleware.ts lines 97-105: JsonWebTokenError
maps to 401, every other thrown error to the one generic 500 body. -/
def catchResponse (e : ThrownErr) : MwOutcome :=
  match e with
  | .jwtError => .respond 401 "Invalid or expired token"
  | _ => .respond 500 "Failed to establish tenant connection"

/-- Shallow embedding of tenantMiddleware (tenantMiddleware.ts lines 8-106),
branch for branch: token extraction, jwt.verify, email claim, shared-db user
lookup with organization join, organizationId presence, organization
isActive, schemaName presence, getTenantClient, req.tenantDb assignment,
tenant-local employee lookup, req.user assignment, next(). -/
def tenantMiddleware (env : MwEnv) (reg : Registry) : MwResult :=
  match env.token with
  | none => ⟨.respond 401 "No token provided", none, none, reg, []⟩
  | some t =>
    match env.verify t with
    | .error e => ⟨catchResponse e, none, none, reg, [.verifyToken]⟩
    | .ok decoded =>
      match decoded.email with
      | none => ⟨.respond 401 "No email found in token", none, none, reg, [.verifyToken]⟩
      | some userEmail =>
        match env.findUser userEmail with
        | .error e => ⟨catchResponse e, none, none, reg, [.verifyToken, .userLookup]⟩
        | .ok none => ⟨.respond 404 "User not found", none, none, reg, [.verifyToken, .userLookup]⟩
        | .ok (some u) =>
          match u.organizationId with
          | none => ⟨.respond 400 "User not associated with any organization", none, none, reg,
              [.verifyToken, .userLookup]⟩
          | some orgId =>
            match u.organization with
            | none => ⟨.respond 403 "Organization is not active", none, none, reg,
                [.verifyToken, .userLookup]⟩
            | some o =>
              if o.isActive = false then
                ⟨.respond 403 "Organization is not active", none, none, reg,
                  [.verifyToken, .userLookup]⟩
              else
                match o.schemaName with
                | none => ⟨.respond 500 "Organization schema not configured", none, none, reg,
                    [.verifyToken, .userLookup]⟩
                | some schemaName =>
                  match reg.getTenantClient schemaName env.tenantIo with
                  | .error e => ⟨catchResponse e, none, none, reg,
                      [.verifyToken, .userLookup, .tenantClientCall schemaName]⟩
                  | .ok (tenantDb, reg') =>
                    match env.findEmployee userEmail with
                    | .error e => ⟨catchResponse e, none, some tenantDb, reg',
                        [.verifyToken, .userLookup, .tenantClientCall schemaName, .employeeLookup]⟩
                    | .ok empId =>
                      ⟨.nextCalled,
                        some ⟨empId, u.email, u.id, orgId, o.name, u.role⟩,
                        some tenantDb, reg',
                        [.verifyToken, .userLookup, .tenantClientCall schemaName, .employeeLookup]⟩

/-- Organization resolved by one middleware environment: the organization
join of the user row found for the credential email, when every step up to
the user lookup succeeds. -/
def resolvedOrg (env : MwEnv) : Option OrgRow :=
  match env.token with
  | none => none
  | some t =>
    match env.verify t with
    | .error _ => none
    | .ok decoded =>
      match decoded.email with
      | none => none
      | some userEmail =>
        match env.findUser userEmail with
        | .ok (some u) => u.organization
        | _ => none

/-- Employee row shape used by fetchUsersController's findMany mapping. -/
structure EmployeeRec where
  id : String
  email : String
  role : String
  isActive : Bool
deriving DecidableEq, Repr

/-- Environment of one fetchUsersController run (authController, mounted at
GET /api/user/get_users with no tenant middleware in front of it). -/
structure FetchUsersEnv where
  organizationId : Option String
  findOrganization : String → Except ThrownErr (Option OrgRow)
  tenantIo : Except ThrownErr Unit
  findEmployees : Except ThrownErr (List EmployeeRec)

/-- Result of one fetchUsersController run, with the registry state after
the run and the suspension points reached. -/
structure CtrlResult where
  outcome : MwOutcome
  registry : Registry
  steps : List MwStep
deriving DecidableEq, Repr

/-- Shallow embedding of fetchUsersController (authController lines 824-867):
requires an organizationId query parameter, fetches the organization row
selecting only schemaName, 404 when absent or schema unset, then calls
getTenantClient and lists the tenant employees.  The organization's isActive
flag is never consulted on this path. -/
def fetchUsersController (env : FetchUsersEnv) (reg : Registry) : CtrlResult :=
  match env.organizationId with
  | none => ⟨.respond 400 "organizationId is required", reg, []⟩
  | some orgId =>
    match env.findOrganization orgId with
    | .error _ => ⟨.respond 500 "Failed to fetch users details", reg, [.userLookup]⟩
    | .ok none => ⟨.respond 404 "Organization not found or schema not set", reg, [.userLookup]⟩
    | .ok (some org) =>
      match org.schemaName with
      | none => ⟨.respond 404 "Organization not found or schema not set", reg, [.userLookup]⟩
      | some schemaName =>
        match reg.getTenantClient schemaName env.tenantIo with
        | .error _ => ⟨.respond 500 "Failed to fetch users details", reg,
            [.userLookup, .tenantClientCall schemaName]⟩
        | .ok (_, reg') =>
          match env.findEmployees with
          | .error _ => ⟨.respond 500 "Failed to fetch users details", reg',
              [.userLookup, .tenantClientCall schemaName, .employeeLookup]⟩
          | .ok _ => ⟨.respond 200 "", reg',
              [.userLookup, .tenantClientCall schemaName, .employeeLookup]⟩

/-! ### Concurrent first-access model of the Registry

Modelled from the spec (sections 4.1 and 5): the schemaName-to-handle cache
and the in-flight marker map live on the single event-loop thread; the
synchronous head of getTenantClient checks the cache, then the in-flight
markers, and installs a fresh marker together with the pool construction
before the first await.  N concurrent first-time calls are N executions of
that synchronous head interleaved in one tick. -/

/-- Registry state for the first-access race: cache maps schemaName to a
handle id, pending maps schemaName to the promise id of the in-flight
provisioning attempt, ctorCount counts pool constructions. -/
structure RaceState where
  cache : List (String × Nat)
  pending : List (String × Nat)
  ctorCount : Nat
  nextPromise : Nat
deriving DecidableEq, Repr

/-- What one caller of getTenantClient holds after the synchronous head:
a handle taken straight from the cache, or a subscription to the in-flight
promise it will await. -/
inductive CallOutcome where
  | immediate (handleId : Nat)
  | awaiting (promiseId : Nat)
deriving DecidableEq, Repr

/-- Modelled from the spec: the synchronous head of getTenantClient(s)
(spec section 4.1 steps (1)-(3)) executed on the event loop with no
suspension — cache hit returns the cached handle, an in-flight marker is
awaited, otherwise a new marker is installed and a pool construction is
started before any await. -/
def firstAccessStep (st : RaceState) (s : String) : CallOutcome × RaceState :=
  match st.cache.lookup s with
  | some h => (.immediate h, st)
  | none =>
    match st.pending.lookup s with
    | some p => (.awaiting p, st)
    | none =>
      (.awaiting st.nextPromise,
        { st with
            pending := (s, st.nextPromise) :: st.pending,
            ctorCount := st.ctorCount + 1,
            nextPromise := st.nextPromise + 1 })

/-- N concurrent first-time calls to getTenantClient(s) in one tick: the
synchronous heads run one after the other on the event loop. -/
def runConcurrentCalls (st : RaceState) (s : String) : Nat → List CallOutcome × RaceState
  | 0 => ([], st)
  | Nat.succ n =>
    let r := firstAccessStep st s
    let rest := runConcurrentCalls r.2 s n
    (r.1 :: rest.1, rest.2)

/-- Resolution of a caller's outcome once the in-flight promises settle:
handleOf gives the handle each promise resolves to. -/
def resolveOutcome (handleOf : Nat → Nat) : CallOutcome → Nat
  | .immediate h => h
  | .awaiting p => handleOf p

/-! ### Startup and shutdown lifecycle traces

Embedding of the process-lifecycle glue: main.ts imports organizationRoutes
(whose module evaluation runs initializeMigrations in one of the two
observed variants) and then calls app.listen; gracefulShutdown closes the
server and runs cleanupMiddleware followed by closeAllConnections. -/

/-- Observable startup events. -/
inductive StartupEvent where
  | migrationsStarted
  | migrationsCompleted
  | migrationsFailed
  | migrationFailureLogged
  | moduleEvalFailed
  | listenerBound
deriving DecidableEq, Repr

/-- The two observed organizationRoutes variants: one awaits
initializeMigrations at module top level, the other launches it inside an
unawaited async IIFE whose catch only logs. -/
inductive StartupVariant where
  | awaited
  | fireAndForget
deriving DecidableEq, Repr

/-- Startup trace of main.ts as a function of the organizationRoutes
variant and of whether initializeMigrations succeeds.  With the awaited
variant, module evaluation finishes only after the migration promise
settles, so app.listen runs after completion and a rejection aborts
the module load before any listener exists.  With the fire-and-forget
variant the
IIFE suspends at its first await, module evaluation returns at once,
app.listen runs, and a later rejection is caught and only logged. -/
def startupTrace : StartupVariant → Bool → List StartupEvent
  | .awaited, true => [.migrationsStarted, .migrationsCompleted, .listenerBound]
  | .awaited, false => [.migrationsStarted, .migrationsFailed, .moduleEvalFailed]
  | .fireAndForget, true => [.migrationsStarted, .listenerBound, .migrationsCompleted]
  | .fireAndForget, false =>
      [.migrationsStarted, .listenerBound, .migrationsFailed, .migrationFailureLogged]

/-- Observable shutdown events. -/
inductive ShutdownEvent where
  | stopAcceptingConnections
  | controlPlaneDisconnected
  | tenantPoolsClosed
deriving DecidableEq, Repr

/-- Shutdown trace of gracefulShutdown in main.ts (lines 126-140):
server.close stops accepting new connections, its callback awaits
cleanupMiddleware — which disconnects the shared control-plane client first
and closes the tenant pools second (tenantMiddleware.ts lines 109-112) —
and then awaits schemaService.closeAllConnections once more. -/
def gracefulShutdownTrace : List ShutdownEvent :=
  [.stopAcceptingConnections, .controlPlaneDisconnected, .tenantPoolsClosed, .tenantPoolsClosed]

/-- Index of the first occurrence of x, if any. -/
def idxOf {α : Type} [DecidableEq α] (x : α) : List α → Option Nat
  | [] => none
  | y :: ys => if y = x then some 0 else (idxOf x ys).map (· + 1)

/-- Whether the first occurrence of a strictly precedes the first
occurrence of b (both must occur). -/
def beforeB {α : Type} [DecidableEq α] (a b : α) (l : List α) : Bool :=
  match idxOf a l, idxOf b l with
  | some i, some j => i < j
  | _, _ => false

/-- Whether the user row's joined organization is active, exactly the
condition of tenantMiddleware.ts line 57 (optional chaining: an absent
organization counts as inactive). -/
def orgActive (u : UserRow) : Bool :=
  match u.organization with
  | some o => o.isActive
  | none => false

/-! ### Concrete instances used to evaluate the embedding -/

/-- Empty registry: no cached handles, pool ids from zero. -/
def reg0 : Registry := ⟨[], 0⟩

/-- Active organization with an assigned schema. -/
def orgAcme : OrgRow := ⟨"org1", "Acme", some "org_acme", true⟩

/-- Deactivated organization that nevertheless has an assigned schema. -/
def orgBeta : OrgRow := ⟨"org2", "Beta", some "org_beta", false⟩

/-- Decoded bearer credential whose role claim is ADMIN. -/
def tokAlice : DecodedToken := ⟨some "alice@acme.test", "ADMIN"⟩

/-- Control-plane user row of the active organization, whose stored role
differs from the credential's role claim. -/
def userAcme : UserRow := ⟨"u1", "alice@acme.test", "SALES_REP", some "org1", some orgAcme⟩

/-- Control-plane user row pointing at the deactivated organization. -/
def userBeta : UserRow := ⟨"u1", "alice@acme.test", "SALES_REP", some "org2", some orgBeta⟩

/-- Fully healthy environment: valid token, user of an active organization
with a schema, reachable databases, employee row present. -/
def envOk : MwEnv :=
  ⟨some "tok", fun _ => .ok tokAlice, fun _ => .ok (some userAcme), .ok (),
    fun _ => .ok (some "emp1")⟩

/-- Healthy environment with no bearer token on the request. -/
def envNoToken : MwEnv := { envOk with token := none }

/-- Healthy environment except the user belongs to a deactivated
organization. -/
def envInactive : MwEnv := { envOk with findUser := fun _ => .ok (some userBeta) }

/-- Healthy environment except the tenant-local employee row is absent. -/
def envEmpAbsent : MwEnv := { envOk with findEmployee := fun _ => .ok none }

/-- Healthy environment except the tenant-local employee lookup throws. -/
def envEmpFail : MwEnv := { envOk with findEmployee := fun _ => .error .connectionError }

/-- Healthy environment except the shared-database user lookup throws. -/
def envUserFail : MwEnv := { envOk with findUser := fun _ => .error .connectionError }

/-- Healthy environment except first-time provisioning fails. -/
def envProvFail : MwEnv := { envOk with tenantIo := .error .provisioningError }

/-- Deactivated organization with an assigned schema, fetched by
fetchUsersController. -/
def orgGamma : OrgRow := ⟨"org3", "Gamma", some "org_gamma", false⟩

/-- fetchUsersController environment resolving the deactivated orgGamma. -/
def envFetchInactive : FetchUsersEnv :=
  ⟨some "org3", fun _ => .ok (some orgGamma), .ok (), .ok []⟩

/-! ## Theorems -/

/-- Helper: once an in-flight marker for s is installed (and s is not yet
cached), every further synchronous first-access head subscribes to that
marker and leaves the registry state untouched. -/
theorem runConcurrentCalls_pending_fixed (st : RaceState) (s : String) (p : Nat)
    (hc : st.cache.lookup s = none) (hp : st.pending.lookup s = some p) :
    ∀ n, runConcurrentCalls st s n = (List.replicate n (CallOutcome.awaiting p), st) := by
  intro n
  induction n with
  | zero => simp [runConcurrentCalls]
  | succ m ih => simp [runConcurrentCalls, firstAccessStep, hc, hp, ih, List.replicate_succ]

/-- C1: at process startup initializeMigrations() is claimed to run to
completion before the HTTP listener binds.  With the awaited
organizationRoutes variant this holds, but with the fire-and-forget variant
present in the sources the listener binds while the migrations are still in
flight, so a request can be accepted before every schema is current. -/
theorem C1_fireAndForget_listener_binds_before_migrations :
    beforeB StartupEvent.listenerBound StartupEvent.migrationsCompleted
        (startupTrace .fireAndForget true) = true
    ∧ beforeB StartupEvent.migrationsCompleted StartupEvent.listenerBound
        (startupTrace .fireAndForget true) = false
    ∧ beforeB StartupEvent.migrationsCompleted StartupEvent.listenerBound
        (startupTrace .awaited true) = true := by
  decide

/-- C2: a startup migration failure is claimed to be fatal.  With the
awaited organizationRoutes variant it is (module evaluation fails and the
listener never binds), but with the fire-and-forget variant the rejection
is caught, merely logged, and the process keeps serving traffic. -/
theorem C2_fireAndForget_migration_failure_not_fatal :
    StartupEvent.listenerBound ∈ startupTrace .fireAndForget false
    ∧ StartupEvent.migrationFailureLogged ∈ startupTrace .fireAndForget false
    ∧ StartupEvent.moduleEvalFailed ∉ startupTrace .fireAndForget false
    ∧ StartupEvent.moduleEvalFailed ∈ startupTrace .awaited false
    ∧ StartupEvent.listenerBound ∉ startupTrace .awaited false := by
  decide

/-- C3 counterexample: the claimed shutdown order (tenant pools closed
before the control-plane handle disconnects) does not hold of
gracefulShutdown: cleanupMiddleware disconnects the shared control-plane
client before any tenant pool is closed. -/
theorem C3_counterexample_control_plane_disconnected_first :
    ShutdownEvent.tenantPoolsClosed ∈ gracefulShutdownTrace
    ∧ ShutdownEvent.controlPlaneDisconnected ∈ gracefulShutdownTrace
    ∧ beforeB ShutdownEvent.tenantPoolsClosed ShutdownEvent.controlPlaneDisconnected
        gracefulShutdownTrace = false := by
  decide

/-- C3 amended: on a termination signal the shutdown sequence stops
accepting new connections first, then disconnects the control-plane handle,
and only after that closes the cached tenant pools — so the tenant handles
outlive the control-plane handle, the reverse of the claimed order. -/
theorem C3_amended_shutdown_order :
    beforeB ShutdownEvent.stopAcceptingConnections ShutdownEvent.controlPlaneDisconnected
        gracefulShutdownTrace = true
    ∧ beforeB ShutdownEvent.controlPlaneDisconnected ShutdownEvent.tenantPoolsClosed
        gracefulShutdownTrace = true := by
  decide

/-- C4: N concurrent first-time calls to getTenantClient(s) in one tick
install exactly one in-flight marker and start exactly one pool
construction; every caller ends up awaiting that same marker, so once its
promise settles all callers resolve to the reference-identical handle. -/
theorem C4_concurrent_first_access_single_pool (st : RaceState) (s : String) (n : Nat)
    (hn : 0 < n) (hc : st.cache.lookup s = none) (hp : st.pending.lookup s = none) :
    (runConcurrentCalls st s n).2.ctorCount = st.ctorCount + 1
    ∧ (runConcurrentCalls st s n).1 = List.replicate n (CallOutcome.awaiting st.nextPromise)
    ∧ ∀ handleOf : Nat → Nat,
        ((runConcurrentCalls st s n).1).map (resolveOutcome handleOf)
          = List.replicate n (handleOf st.nextPromise) := by
  cases n with
  | zero => exact absurd hn (by simp)
  | succ m =>
    have hstep : firstAccessStep st s =
        (CallOutcome.awaiting st.nextPromise,
          { st with
              pending := (s, st.nextPromise) :: st.pending,
              ctorCount := st.ctorCount + 1,
              nextPromise := st.nextPromise + 1 }) := by
      simp [firstAccessStep, hc, hp]
    have hrest := runConcurrentCalls_pending_fixed
        { st with
            pending := (s, st.nextPromise) :: st.pending,
            ctorCount := st.ctorCount + 1,
            nextPromise := st.nextPromise + 1 } s st.nextPromise
        hc (by simp [List.lookup]) m
    refine ⟨?_, ?_, ?_⟩
    · simp [runConcurrentCalls, hstep, hrest]
    · simp [runConcurrentCalls, hstep, hrest, List.replicate_succ]
    · intro handleOf
      simp [runConcurrentCalls, hstep, hrest, List.replicate_succ, resolveOutcome]

/-- C4 witness: two simultaneous first accesses to a brand-new schema on an
empty registry both await promise 0. -/
theorem C4_single_pool_witness :
    0 < 2 ∧ (runConcurrentCalls ⟨[], [], 0, 0⟩ "org_newco" 2).1
      = List.replicate 2 (CallOutcome.awaiting 0) :=
  ⟨by decide,
    (C4_concurrent_first_access_single_pool ⟨[], [], 0, 0⟩ "org_newco" 2
      (by decide) rfl rfl).2.1⟩

/-- C5: the tenant-resolution checks run in the specified order and each
failing check short-circuits to its typed status — missing token 401,
invalid/expired token 401, absent email claim 401, no matching user 404,
absent organizationId 400, inactive organization 403, null schemaName 500 —
and the recorded steps show that no later suspension point runs after a
failure. -/
theorem C5_resolution_short_circuit_order (env : MwEnv) (reg : Registry) :
    (env.token = none →
      tenantMiddleware env reg
        = ⟨.respond 401 "No token provided", none, none, reg, []⟩)
    ∧ (∀ t, env.token = some t → env.verify t = .error ThrownErr.jwtError →
      tenantMiddleware env reg
        = ⟨.respond 401 "Invalid or expired token", none, none, reg, [.verifyToken]⟩)
    ∧ (∀ t d, env.token = some t → env.verify t = .ok d → d.email = none →
      tenantMiddleware env reg
        = ⟨.respond 401 "No email found in token", none, none, reg, [.verifyToken]⟩)
    ∧ (∀ t d em, env.token = some t → env.verify t = .ok d → d.email = some em →
      env.findUser em = .ok none →
      tenantMiddleware env reg
        = ⟨.respond 404 "User not found", none, none, reg, [.verifyToken, .userLookup]⟩)
    ∧ (∀ t d em u, env.token = some t → env.verify t = .ok d → d.email = some em →
      env.findUser em = .ok (some u) → u.organizationId = none →
      tenantMiddleware env reg
        = ⟨.respond 400 "User not associated with any organization", none, none, reg,
            [.verifyToken, .userLookup]⟩)
    ∧ (∀ t d em u oid, env.token = some t → env.verify t = .ok d → d.email = some em →
      env.findUser em = .ok (some u) → u.organizationId = some oid → orgActive u = false →
      tenantMiddleware env reg
        = ⟨.respond 403 "Organization is not active", none, none, reg,
            [.verifyToken, .userLookup]⟩)
    ∧ (∀ t d em u oid o, env.token = some t → env.verify t = .ok d → d.email = some em →
      env.findUser em = .ok (some u) → u.organizationId = some oid →
      u.organization = some o → o.isActive = true → o.schemaName = none →
      tenantMiddleware env reg
        = ⟨.respond 500 "Organization schema not configured", none, none, reg,
            [.verifyToken, .userLookup]⟩) := by
  refine ⟨?_, ?_, ?_, ?_, ?_, ?_, ?_⟩
  · intro h
    simp [tenantMiddleware, h]
  · intro t h1 h2
    simp [tenantMiddleware, h1, h2, catchResponse]
  · intro t d h1 h2 h3
    simp [tenantMiddleware, h1, h2, h3]
  · intro t d em h1 h2 h3 h4
    simp [tenantMiddleware, h1, h2, h3, h4]
  · intro t d em u h1 h2 h3 h4 h5
    simp [tenantMiddleware, h1, h2, h3, h4, h5]
  · intro t d em u oid h1 h2 h3 h4 h5 h6
    cases ho : u.organization with
    | none => simp [tenantMiddleware, h1, h2, h3, h4, h5, ho]
    | some o =>
      have hia : o.isActive = false := by
        simpa [orgActive, ho] using h6
      simp [tenantMiddleware, h1, h2, h3, h4, h5, ho, hia]
  · intro t d em u oid o h1 h2 h3 h4 h5 h6 h7 h8
    simp [tenantMiddleware, h1, h2, h3, h4, h5, h6, h7, h8]

/-- C5 witness: the missing-token and inactive-organization conjuncts
evaluated on concrete environments. -/
theorem C5_short_circuit_witness :
    tenantMiddleware envNoToken reg0
      = ⟨.respond 401 "No token provided", none, none, reg0, []⟩
    ∧ tenantMiddleware envInactive reg0
      = ⟨.respond 403 "Organization is not active", none, none, reg0,
          [.verifyToken, .userLookup]⟩ :=
  ⟨(C5_resolution_short_circuit_order envNoToken reg0).1 rfl,
    (C5_resolution_short_circuit_order envInactive reg0).2.2.2.2.2.1 "tok" tokAlice
      "alice@acme.test" userBeta "org2" rfl rfl rfl rfl rfl rfl⟩

/-- C6 counterexample: the claim that getTenantClient is invoked only for
an organization with isActive = true fails on the code: fetchUsersController
(mounted without the tenant middleware) selects only schemaName, never
consults isActive, and on a deactivated organization with an assigned
schema it calls getTenantClient, creates a handle, grows the cache, and
answers 200 rather than 403. -/
theorem C6_counterexample_fetchUsers_ignores_isActive :
    orgGamma.isActive = false
    ∧ (fetchUsersController envFetchInactive reg0).outcome = MwOutcome.respond 200 ""
    ∧ MwStep.tenantClientCall "org_gamma" ∈ (fetchUsersController envFetchInactive reg0).steps
    ∧ (fetchUsersController envFetchInactive reg0).registry.cache
        = [("org_gamma", ⟨"org_gamma", 0⟩)]
    ∧ reg0.cache = [] := by
  refine ⟨rfl, rfl, ?_, rfl, rfl⟩
  decide

/-- C6 amended: within the tenant-resolution middleware the claim holds —
a request over a deactivated organization gets 403 with no handle created
and the registry untouched, and whenever the middleware reaches
getTenantClient the resolved organization is active with that schemaName —
but routes that bypass the middleware (fetchUsersController,
activateAccountController) invoke getTenantClient without the isActive
check. -/
theorem C6_amended_middleware_guards_getTenantClient (env : MwEnv) (reg : Registry) :
    (∀ t d em u oid, env.token = some t → env.verify t = .ok d → d.email = some em →
      env.findUser em = .ok (some u) → u.organizationId = some oid → orgActive u = false →
      tenantMiddleware env reg
        = ⟨.respond 403 "Organization is not active", none, none, reg,
            [.verifyToken, .userLookup]⟩)
    ∧ (∀ s, MwStep.tenantClientCall s ∈ (tenantMiddleware env reg).steps →
        ∃ o, resolvedOrg env = some o ∧ o.isActive = true ∧ o.schemaName = some s) := by
  constructor
  · intro t d em u oid h1 h2 h3 h4 h5 h6
    cases ho : u.organization with
    | none => simp [tenantMiddleware, h1, h2, h3, h4, h5, ho]
    | some o =>
      have hia : o.isActive = false := by
        simpa [orgActive, ho] using h6
      simp [tenantMiddleware, h1, h2, h3, h4, h5, ho, hia]
  · intro s hs
    cases h1 : env.token with
    | none => simp [tenantMiddleware, h1] at hs
    | some t =>
      cases h2 : env.verify t with
      | error e => simp [tenantMiddleware, h1, h2] at hs
      | ok d =>
        cases h3 : d.email with
        | none => simp [tenantMiddleware, h1, h2, h3] at hs
        | some em =>
          cases h4 : env.findUser em with
          | error e => simp [tenantMiddleware, h1, h2, h3, h4] at hs
          | ok uo =>
            cases uo with
            | none => simp [tenantMiddleware, h1, h2, h3, h4] at hs
            | some u =>
              cases h5 : u.organizationId with
              | none => simp [tenantMiddleware, h1, h2, h3, h4, h5] at hs
              | some oid =>
                cases h6 : u.organization with
                | none => simp [tenantMiddleware, h1, h2, h3, h4, h5, h6] at hs
                | some o =>
                  cases h7 : o.isActive with
                  | false => simp [tenantMiddleware, h1, h2, h3, h4, h5, h6, h7] at hs
                  | true =>
                    cases h8 : o.schemaName with
                    | none => simp [tenantMiddleware, h1, h2, h3, h4, h5, h6, h7, h8] at hs
                    | some sn =>
                      refine ⟨o, by simp [resolvedOrg, h1, h2, h3, h4, h6], h7, ?_⟩
                      cases h9 : reg.getTenantClient sn env.tenantIo with
                      | error e =>
                        simp [tenantMiddleware, h1, h2, h3, h4, h5, h6, h7, h8, h9] at hs
                        subst hs
                        exact h8
                      | ok pr =>
                        obtain ⟨h', reg'⟩ := pr
                        cases h10 : env.findEmployee em with
                        | error e =>
                          simp [tenantMiddleware, h1, h2, h3, h4, h5, h6, h7, h8, h9, h10] at hs
                          subst hs
                          exact h8
                        | ok empId =>
                          simp [tenantMiddleware, h1, h2, h3, h4, h5, h6, h7, h8, h9, h10] at hs
                          subst hs
                          exact h8

/-- C6 witness: the deactivated-organization path returns 403 with the
registry untouched, and the healthy path reaches getTenantClient with an
active organization bound to its schema. -/
theorem C6_guard_witness :
    tenantMiddleware envInactive reg0
      = ⟨.respond 403 "Organization is not active", none, none, reg0,
          [.verifyToken, .userLookup]⟩
    ∧ ∃ o, resolvedOrg envOk = some o ∧ o.isActive = true ∧ o.schemaName = some "org_acme" :=
  ⟨(C6_amended_middleware_guards_getTenantClient envInactive reg0).1 "tok" tokAlice
      "alice@acme.test" userBeta "org2" rfl rfl rfl rfl rfl rfl,
    (C6_amended_middleware_guards_getTenantClient envOk reg0).2 "org_acme" (by decide)⟩

/-- C7 counterexample: with everything healthy except an absent
tenant-local employee row, the middleware does not answer 404 — it calls
next() with an identity whose tenant-scoped id is undefined. -/
theorem C7_counterexample_missing_employee_no_404 :
    envEmpAbsent.findEmployee "alice@acme.test" = .ok none
    ∧ (tenantMiddleware envEmpAbsent reg0).outcome = MwOutcome.nextCalled
    ∧ (tenantMiddleware envEmpAbsent reg0).outcome ≠ MwOutcome.respond 404 "User not found"
    ∧ (tenantMiddleware envEmpAbsent reg0).reqUser
        = some ⟨none, "alice@acme.test", "u1", "org1", "Acme", "SALES_REP"⟩ := by
  refine ⟨rfl, rfl, by decide, rfl⟩

/-- C7 amended: after the tenant handle is obtained the tenant-local
employee row is indeed resolved by the credential's email, but when that
row is absent the middleware does not fail: it attaches an identity with an
undefined tenant-scoped id and hands over to the downstream handler. -/
theorem C7_amended_missing_employee_proceeds (env : MwEnv) (reg : Registry)
    (t : String) (d : DecodedToken) (em : String) (u : UserRow) (oid : String) (o : OrgRow)
    (sn : String) (h' : TenantHandle) (reg' : Registry)
    (h1 : env.token = some t) (h2 : env.verify t = .ok d) (h3 : d.email = some em)
    (h4 : env.findUser em = .ok (some u)) (h5 : u.organizationId = some oid)
    (h6 : u.organization = some o) (h7 : o.isActive = true) (h8 : o.schemaName = some sn)
    (h9 : reg.getTenantClient sn env.tenantIo = .ok (h', reg'))
    (h10 : env.findEmployee em = .ok none) :
    tenantMiddleware env reg
      = ⟨.nextCalled, some ⟨none, u.email, u.id, oid, o.name, u.role⟩, some h', reg',
          [.verifyToken, .userLookup, .tenantClientCall sn, .employeeLookup]⟩ := by
  simp [tenantMiddleware, h1, h2, h3, h4, h5, h6, h7, h8, h9, h10]

/-- C7 witness: the amended behaviour evaluated on the concrete absent
employee environment. -/
theorem C7_missing_employee_witness :
    tenantMiddleware envEmpAbsent reg0
      = ⟨.nextCalled, some ⟨none, "alice@acme.test", "u1", "org1", "Acme", "SALES_REP"⟩,
          some ⟨"org_acme", 0⟩, ⟨[("org_acme", ⟨"org_acme", 0⟩)], 1⟩,
          [.verifyToken, .userLookup, .tenantClientCall "org_acme", .employeeLookup]⟩ :=
  C7_amended_missing_employee_proceeds envEmpAbsent reg0 "tok" tokAlice "alice@acme.test"
    userAcme "org1" orgAcme "org_acme" ⟨"org_acme", 0⟩ ⟨[("org_acme", ⟨"org_acme", 0⟩)], 1⟩
    rfl rfl rfl rfl rfl rfl rfl rfl rfl rfl

/-- Helper: the catch clause always produces a typed 401 or 500 response. -/
theorem catchResponse_shape (e : ThrownErr) :
    ∃ st m, catchResponse e = MwOutcome.respond st m ∧ (st = 401 ∨ st = 500) := by
  cases e with
  | jwtError => exact ⟨401, _, rfl, Or.inl rfl⟩
  | connectionError => exact ⟨500, _, rfl, Or.inr rfl⟩
  | provisioningError => exact ⟨500, _, rfl, Or.inr rfl⟩

/-- C8 counterexample: when the tenant-local employee lookup throws after
the handle was obtained, the request is aborted with the generic 500 but
the tenant handle is left attached to the request context, so the step has
partially attached a tenant context. -/
theorem C8_counterexample_handle_left_attached :
    (tenantMiddleware envEmpFail reg0).outcome
      = MwOutcome.respond 500 "Failed to establish tenant connection"
    ∧ (tenantMiddleware envEmpFail reg0).reqTenantDb = some ⟨"org_acme", 0⟩
    ∧ (tenantMiddleware envEmpFail reg0).reqTenantDb ≠ none := by
  refine ⟨rfl, rfl, by decide⟩

/-- C8 amended: on any failure the request is aborted with a typed error
status and no downstream handler runs, and the identity is never attached;
the tenant handle, however, can remain attached when the failure happened
at the tenant-local employee lookup, after the handle had been obtained. -/
theorem C8_amended_failure_never_attaches_identity (env : MwEnv) (reg : Registry)
    (hfail : (tenantMiddleware env reg).outcome ≠ MwOutcome.nextCalled) :
    (tenantMiddleware env reg).reqUser = none
    ∧ ((tenantMiddleware env reg).reqTenantDb ≠ none →
        MwStep.employeeLookup ∈ (tenantMiddleware env reg).steps)
    ∧ ∃ st m, (tenantMiddleware env reg).outcome = MwOutcome.respond st m
        ∧ (st = 400 ∨ st = 401 ∨ st = 403 ∨ st = 404 ∨ st = 500) := by
  cases h1 : env.token with
  | none =>
    have hr : tenantMiddleware env reg
        = ⟨.respond 401 "No token provided", none, none, reg, []⟩ := by
      simp [tenantMiddleware, h1]
    rw [hr]
    exact ⟨rfl, by simp, 401, _, rfl, by decide⟩
  | some t =>
    cases h2 : env.verify t with
    | error e =>
      have hr : tenantMiddleware env reg
          = ⟨catchResponse e, none, none, reg, [.verifyToken]⟩ := by
        simp [tenantMiddleware, h1, h2]
      obtain ⟨st, m, hsm, hst⟩ := catchResponse_shape e
      rw [hr]
      refine ⟨rfl, by simp, st, m, hsm, ?_⟩
      rcases hst with h | h
      · exact Or.inr (Or.inl h)
      · exact Or.inr (Or.inr (Or.inr (Or.inr h)))
    | ok d =>
      cases h3 : d.email with
      | none =>
        have hr : tenantMiddleware env reg
            = ⟨.respond 401 "No email found in token", none, none, reg, [.verifyToken]⟩ := by
          simp [tenantMiddleware, h1, h2, h3]
        rw [hr]
        exact ⟨rfl, by simp, 401, _, rfl, by decide⟩
      | some em =>
        cases h4 : env.findUser em with
        | error e =>
          have hr : tenantMiddleware env reg
              = ⟨catchResponse e, none, none, reg, [.verifyToken, .userLookup]⟩ := by
            simp [tenantMiddleware, h1, h2, h3, h4]
          obtain ⟨st, m, hsm, hst⟩ := catchResponse_shape e
          rw [hr]
          refine ⟨rfl, by simp, st, m, hsm, ?_⟩
          rcases hst with h | h
          · exact Or.inr (Or.inl h)
          · exact Or.inr (Or.inr (Or.inr (Or.inr h)))
        | ok uo =>
          cases uo with
          | none =>
            have hr : tenantMiddleware env reg
                = ⟨.respond 404 "User not found", none, none, reg,
                    [.verifyToken, .userLookup]⟩ := by
              simp [tenantMiddleware, h1, h2, h3, h4]
            rw [hr]
            exact ⟨rfl, by simp, 404, _, rfl, by decide⟩
          | some u =>
            cases h5 : u.organizationId with
            | none =>
              have hr : tenantMiddleware env reg
                  = ⟨.respond 400 "User not associated with any organization", none, none,
                      reg, [.verifyToken, .userLookup]⟩ := by
                simp [tenantMiddleware, h1, h2, h3, h4, h5]
              rw [hr]
              exact ⟨rfl, by simp, 400, _, rfl, by decide⟩
            | some oid =>
              cases h6 : u.organization with
              | none =>
                have hr : tenantMiddleware env reg
                    = ⟨.respond 403 "Organization is not active", none, none, reg,
                        [.verifyToken, .userLookup]⟩ := by
                  simp [tenantMiddleware, h1, h2, h3, h4, h5, h6]
                rw [hr]
                exact ⟨rfl, by simp, 403, _, rfl, by decide⟩
              | some o =>
                cases h7 : o.isActive with
                | false =>
                  have hr : tenantMiddleware env reg
                      = ⟨.respond 403 "Organization is not active", none, none, reg,
                          [.verifyToken, .userLookup]⟩ := by
                    simp [tenantMiddleware, h1, h2, h3, h4, h5, h6, h7]
                  rw [hr]
                  exact ⟨rfl, by simp, 403, _, rfl, by decide⟩
                | true =>
                  cases h8 : o.schemaName with
                  | none =>
                    have hr : tenantMiddleware env reg
                        = ⟨.respond 500 "Organization schema not configured", none, none,
                            reg, [.verifyToken, .userLookup]⟩ := by
                      simp [tenantMiddleware, h1, h2, h3, h4, h5, h6, h7, h8]
                    rw [hr]
                    exact ⟨rfl, by simp, 500, _, rfl, by decide⟩
                  | some sn =>
                    cases h9 : reg.getTenantClient sn env.tenantIo with
                    | error e =>
                      have hr : tenantMiddleware env reg
                          = ⟨catchResponse e, none, none, reg,
                              [.verifyToken, .userLookup, .tenantClientCall sn]⟩ := by
                        simp [tenantMiddleware, h1, h2, h3, h4, h5, h6, h7, h8, h9]
                      obtain ⟨st, m, hsm, hst⟩ := catchResponse_shape e
                      rw [hr]
                      refine ⟨rfl, by simp, st, m, hsm, ?_⟩
                      rcases hst with h | h
                      · exact Or.inr (Or.inl h)
                      · exact Or.inr (Or.inr (Or.inr (Or.inr h)))
                    | ok pr =>
                      obtain ⟨h', reg'⟩ := pr
                      cases h10 : env.findEmployee em with
                      | error e =>
                        have hr : tenantMiddleware env reg
                            = ⟨catchResponse e, none, some h', reg',
                                [.verifyToken, .userLookup, .tenantClientCall sn,
                                  .employeeLookup]⟩ := by
                          simp [tenantMiddleware, h1, h2, h3, h4, h5, h6, h7, h8, h9, h10]
                        obtain ⟨st, m, hsm, hst⟩ := catchResponse_shape e
                        rw [hr]
                        refine ⟨rfl, ?_, st, m, hsm, ?_⟩
                        · intro _
                          simp
                        · rcases hst with h | h
                          · exact Or.inr (Or.inl h)
                          · exact Or.inr (Or.inr (Or.inr (Or.inr h)))
                      | ok empId =>
                        have hr : tenantMiddleware env reg
                            = ⟨.nextCalled, some ⟨empId, u.email, u.id, oid, o.name, u.role⟩,
                                some h', reg',
                                [.verifyToken, .userLookup, .tenantClientCall sn,
                                  .employeeLookup]⟩ := by
                          simp [tenantMiddleware, h1, h2, h3, h4, h5, h6, h7, h8, h9, h10]
                        rw [hr] at hfail
                        exact absurd rfl hfail

/-- C8 witness: on the missing-token failure no identity is attached. -/
theorem C8_abort_witness :
    (tenantMiddleware envNoToken reg0).reqUser = none :=
  (C8_amended_failure_never_attaches_identity envNoToken reg0 (by decide)).1

/-- Helper: a successful association-list lookup exhibits a member. -/
theorem lookup_mem_pair (l : List (String × TenantHandle)) (s : String) (h : TenantHandle)
    (hl : l.lookup s = some h) : (s, h) ∈ l := by
  induction l with
  | nil => simp [List.lookup] at hl
  | cons p t ih =>
    obtain ⟨k, v⟩ := p
    by_cases hsk : s = k
    · subst hsk
      simp [List.lookup] at hl
      subst hl
      exact List.mem_cons_self _ _
    · have hb : (s == k) = false := by
        simp [hsk]
      simp [List.lookup, hb] at hl
      exact List.mem_cons_of_mem _ (ih hl)

/-- C9 counterexample: on a fully healthy scenario-A run whose credential
carries role claim ADMIN while the control-plane User row stores SALES_REP,
the resolved identity's role is SALES_REP — the explicit keys of the
req.user object override the spread token claims — so it does not equal the
credential's role claim. -/
theorem C9_counterexample_role_from_user_row :
    (tenantMiddleware envOk reg0).outcome = MwOutcome.nextCalled
    ∧ envOk.verify "tok" = .ok tokAlice
    ∧ tokAlice.role = "ADMIN"
    ∧ (tenantMiddleware envOk reg0).reqUser
        = some ⟨some "emp1", "alice@acme.test", "u1", "org1", "Acme", "SALES_REP"⟩
    ∧ ("SALES_REP" : String) ≠ "ADMIN" := by
  refine ⟨rfl, rfl, rfl, rfl, by decide⟩

/-- C9 amended: on a valid credential over an active organization with an
assigned schemaName and both rows present, the resolved identity's role
equals the control-plane User row's role (the credential's role claim is
overridden), and the attached tenant handle is bound to the organization's
schemaName. -/
theorem C9_amended_role_from_user_row_and_schema_binding (env : MwEnv) (reg : Registry)
    (t em : String) (d : DecodedToken) (u : UserRow) (oid : String) (o : OrgRow)
    (sn : String) (h' : TenantHandle) (reg' : Registry) (empId : Option String)
    (hwf : RegWF reg)
    (h1 : env.token = some t) (h2 : env.verify t = .ok d) (h3 : d.email = some em)
    (h4 : env.findUser em = .ok (some u)) (h5 : u.organizationId = some oid)
    (h6 : u.organization = some o) (h7 : o.isActive = true) (h8 : o.schemaName = some sn)
    (h9 : reg.getTenantClient sn env.tenantIo = .ok (h', reg'))
    (h10 : env.findEmployee em = .ok empId) :
    tenantMiddleware env reg
      = ⟨.nextCalled, some ⟨empId, u.email, u.id, oid, o.name, u.role⟩, some h', reg',
          [.verifyToken, .userLookup, .tenantClientCall sn, .employeeLookup]⟩
    ∧ h'.schemaName = sn := by
  constructor
  · simp [tenantMiddleware, h1, h2, h3, h4, h5, h6, h7, h8, h9, h10]
  · unfold Registry.getTenantClient at h9
    cases hc : reg.cache.lookup sn with
    | some hcached =>
      simp [hc] at h9
      obtain ⟨hh, -⟩ := h9
      exact hh ▸ hwf (sn, hcached) (lookup_mem_pair reg.cache sn hcached hc)
    | none =>
      cases hio : env.tenantIo with
      | error e =>
        simp [hc, hio] at h9
      | ok v =>
        simp [hc, hio] at h9
        obtain ⟨hh, -⟩ := h9
        rw [← hh]

/-- C9 witness: the amended behaviour evaluated on the concrete healthy
environment and the empty registry. -/
theorem C9_role_and_binding_witness :
    tenantMiddleware envOk reg0
      = ⟨.nextCalled, some ⟨some "emp1", "alice@acme.test", "u1", "org1", "Acme", "SALES_REP"⟩,
          some ⟨"org_acme", 0⟩, ⟨[("org_acme", ⟨"org_acme", 0⟩)], 1⟩,
          [.verifyToken, .userLookup, .tenantClientCall "org_acme", .employeeLookup]⟩
    ∧ (⟨"org_acme", 0⟩ : TenantHandle).schemaName = "org_acme" :=
  C9_amended_role_from_user_row_and_schema_binding envOk reg0 "tok" "alice@acme.test"
    tokAlice userAcme "org1" orgAcme "org_acme" ⟨"org_acme", 0⟩
    ⟨[("org_acme", ⟨"org_acme", 0⟩)], 1⟩ (some "emp1")
    (by simp [RegWF, reg0]) rfl rfl rfl rfl rfl rfl rfl rfl rfl rfl

/-- C10: every failure inside the middleware that is not a JWT verification
error — an unreachable shared database, a failed first-time provisioning,
or a failed tenant-local employee lookup — is answered with the single
generic 500 body, and ProvisioningError and ConnectionError map to the
identical response. -/
theorem C10_generic_500_envelope (env : MwEnv) (reg : Registry) (e : ThrownErr)
    (he : e ≠ ThrownErr.jwtError) :
    (∀ t d em, env.token = some t → env.verify t = .ok d → d.email = some em →
      env.findUser em = .error e →
      tenantMiddleware env reg
        = ⟨.respond 500 "Failed to establish tenant connection", none, none, reg,
            [.verifyToken, .userLookup]⟩)
    ∧ (∀ t d em u oid o sn, env.token = some t → env.verify t = .ok d → d.email = some em →
      env.findUser em = .ok (some u) → u.organizationId = some oid →
      u.organization = some o → o.isActive = true → o.schemaName = some sn →
      reg.cache.lookup sn = none → env.tenantIo = .error e →
      tenantMiddleware env reg
        = ⟨.respond 500 "Failed to establish tenant connection", none, none, reg,
            [.verifyToken, .userLookup, .tenantClientCall sn]⟩)
    ∧ (∀ t d em u oid o sn h' reg', env.token = some t → env.verify t = .ok d →
      d.email = some em → env.findUser em = .ok (some u) → u.organizationId = some oid →
      u.organization = some o → o.isActive = true → o.schemaName = some sn →
      reg.getTenantClient sn env.tenantIo = .ok (h', reg') →
      env.findEmployee em = .error e →
      tenantMiddleware env reg
        = ⟨.respond 500 "Failed to establish tenant connection", none, some h', reg',
            [.verifyToken, .userLookup, .tenantClientCall sn, .employeeLookup]⟩)
    ∧ catchResponse ThrownErr.provisioningError = catchResponse ThrownErr.connectionError := by
  have hcr : catchResponse e = .respond 500 "Failed to establish tenant connection" := by
    cases e with
    | jwtError => exact absurd rfl he
    | connectionError => rfl
    | provisioningError => rfl
  refine ⟨?_, ?_, ?_, rfl⟩
  · intro t d em h1 h2 h3 h4
    simp [tenantMiddleware, h1, h2, h3, h4, hcr]
  · intro t d em u oid o sn h1 h2 h3 h4 h5 h6 h7 h8 h9 h10
    have hgt : reg.getTenantClient sn env.tenantIo = .error e := by
      simp [Registry.getTenantClient, h9, h10]
    simp [tenantMiddleware, h1, h2, h3, h4, h5, h6, h7, h8, hgt, hcr]
  · intro t d em u oid o sn h' reg' h1 h2 h3 h4 h5 h6 h7 h8 h9 h10
    simp [tenantMiddleware, h1, h2, h3, h4, h5, h6, h7, h8, h9, h10, hcr]

/-- C10 witness: an unreachable shared database and a failed first-time
provisioning both evaluate to the one generic 500 response. -/
theorem C10_generic_500_witness :
    tenantMiddleware envUserFail reg0
      = ⟨.respond 500 "Failed to establish tenant connection", none, none, reg0,
          [.verifyToken, .userLookup]⟩
    ∧ tenantMiddleware envProvFail reg0
      = ⟨.respond 500 "Failed to establish tenant connection", none, none, reg0,
          [.verifyToken, .userLookup, .tenantClientCall "org_acme"]⟩ :=
  ⟨(C10_generic_500_envelope envUserFail reg0 .connectionError (by decide)).1 "tok" tokAlice
      "alice@acme.test" rfl rfl rfl rfl,
    (C10_generic_500_envelope envProvFail reg0 .provisioningError (by decide)).2.1 "tok"
      tokAlice "alice@acme.test" userAcme "org1" orgAcme "org_acme"
      rfl rfl rfl rfl rfl rfl rfl rfl rfl rfl⟩

end ForPharma
